import Mathlib

/-!
Shallow embedding of the BUAA iClass CLI (`src/main.rs`) for checking its
natural-language specification.

The program is a single `main` function with four command arms (Login, List,
Query, Checkin) plus a helper `get_primitive_time`.  External effects (the
remote `Session` calls, the timer sleep, the final persistence of the config
document) are recorded as an explicit list of `Event`s, and the results of the
remote calls are passed in as explicit inputs.  A Rust panic (an `unwrap` on a
failed parse, a failed `Time::from_hms`, or `last()` on an empty vector) is
recorded by the `panicked` flag: a panicking run unwinds out of `main`, so the
code after the `match` (the `session.save()` and the config write-back) never
executes.

Machine integers (`u8`, `i64`) are modelled as `Nat`/`Int`; the values involved
(hours, minutes, second counts within a day) are far below any overflow bound.
Rust's byte-based string slicing `time[0..2]` is modelled character-wise, with
an out-of-range slice returning `none` (the Rust slice panics there).  The two
agree on every input in the success/panic classification and on every produced
value: a successful run of the parse pipeline — in either model — forces the
first four bytes of the string to be ASCII (sign or digit characters), where
bytes and characters coincide, so the other model succeeds with the same
slices and values; and on every other input both panic (an out-of-bounds
slice, a slice ending inside a multi-byte character and a failed digit parse
are all panics feeding the same pipeline of `unwrap`s).
-/

namespace IClassCli

/-- Course record returned by the external API (`buaa_api::IClassCourse`).
The CLI itself only ever inspects the `id` field (in the List arm's
`retain`), so the remaining remote metadata is not modelled. -/
structure IClassCourse where
  id : String
  deriving DecidableEq, Repr

/-- Schedule record returned by the external API.  The CLI only reads `id`
(`schedule.id` at `main.rs:180`). -/
structure IClassSchedule where
  id : String
  deriving DecidableEq, Repr

/-- `Config` (`main.rs:60-66`): the persisted document. -/
structure Config where
  username : String
  password : String
  user_id : String
  courses : List IClassCourse
  deriving DecidableEq, Repr

/-- Rust `#[derive(Default)]` for `Config`: empty strings and an empty
vector. -/
def Config.default : Config := ⟨"", "", "", []⟩

/-- `time::Time`: a time of day with nanosecond precision. -/
structure Time where
  hour : Nat
  minute : Nat
  second : Nat
  nanosecond : Nat
  deriving DecidableEq, Repr

/-- `time::PrimitiveDateTime`: a calendar date (abstracted to a signed day
index) together with a time of day. -/
structure PrimitiveDateTime where
  date : Int
  time : Time
  deriving DecidableEq, Repr

/-- Nanoseconds of a time of day past midnight. -/
def Time.toNanos (t : Time) : Int :=
  ((t.hour * 3600 + t.minute * 60 + t.second : Nat) : Int) * 1000000000
    + (t.nanosecond : Int)

/-- Absolute position of a `PrimitiveDateTime` in nanoseconds; subtraction of
two datetimes (the crate's `Duration`) is the difference of these. -/
def PrimitiveDateTime.toNanos (d : PrimitiveDateTime) : Int :=
  d.date * 86400000000000 + d.time.toNanos

/-- `time::Duration::whole_seconds` of a duration given in nanoseconds:
division truncating toward zero (the crate stores a sign-consistent
seconds/nanoseconds pair and returns the seconds field). -/
def whole_seconds (durationNanos : Int) : Int := Int.tdiv durationNanos 1000000000

/-- `time::Time::from_hms` (`main.rs:161`): range-checked constructor, zero
sub-second part. -/
def Time.from_hms (hour minute second : Nat) : Option Time :=
  if hour ≤ 23 ∧ minute ≤ 59 ∧ second ≤ 59 then some ⟨hour, minute, second, 0⟩
  else none

/-- `get_primitive_time` (`main.rs:199-204`): take the current UTC instant
(modelled as nanoseconds since an epoch), shift it into the fixed UTC+8
offset, and split into date and time-of-day. -/
def get_primitive_time (nowUtcNanos : Int) : PrimitiveDateTime :=
  let localNanos := nowUtcNanos + 8 * 3600 * 1000000000
  let day := Int.fdiv localNanos 86400000000000
  let rem := (Int.emod localNanos 86400000000000).toNat
  let s := rem / 1000000000
  ⟨day, ⟨s / 3600, s / 60 % 60, s % 60, rem % 1000000000⟩⟩

/-- ASCII digit test, as in Rust's integer parser (`'0'..='9'`). -/
def isAsciiDigit (c : Char) : Bool := decide (48 ≤ c.toNat) && decide (c.toNat ≤ 57)

/-- Value of a digit string, most significant first. -/
def digitsToNat (ds : List Char) : Nat :=
  ds.foldl (fun acc c => acc * 10 + (c.toNat - 48)) 0

/-- Digit part of Rust's `str::parse::<u8>`: at least one ASCII digit, value
within the `u8` range (Rust reports overflow past 255). -/
def parseU8Digits (ds : List Char) : Option Nat :=
  if ds ≠ [] ∧ ds.all isAsciiDigit = true then
    if digitsToNat ds ≤ 255 then some (digitsToNat ds) else none
  else none

/-- Rust `str::parse::<u8>` (`main.rs:159-160`): an optional leading plus
sign, then one or more ASCII digits, value at most 255. -/
def parseU8 (s : List Char) : Option Nat :=
  if s.head? = some ('+') then parseU8Digits s.tail else parseU8Digits s

/-- Rust slice `s[a..b]`, modelled character-wise (see the header comment on
byte/character agreement for this program).  Rust panics when the range is
inverted or its end exceeds the string, modelled as `none`; so `"080"[2..4]`
is a panic, not a short slice. -/
def strSlice (s : String) (a b : Nat) : Option (List Char) :=
  if a ≤ b ∧ b ≤ s.data.length then some ((s.data.drop a).take (b - a))
  else none

/-- Lines 159-165 of `main.rs`: parse the 4-digit time string, build the
target instant from today's date (in UTC+8) and the parsed time of day, and
compute `duration.whole_seconds() + 5`.  `none` means the run panicked on
the way: an out-of-bounds slice, a failed parse fed to `unwrap`, or an
out-of-range `from_hms` fed to `unwrap`. -/
def computeDeadline (timeStr : String) (now : PrimitiveDateTime) :
    Option (PrimitiveDateTime × Int) :=
  match (strSlice timeStr 0 2).bind parseU8, (strSlice timeStr 2 4).bind parseU8 with
  | some hour, some minute =>
    match Time.from_hms hour minute 0 with
    | some t =>
      let target : PrimitiveDateTime := ⟨now.date, t⟩
      some (target, whole_seconds (target.toNanos - now.toNanos) + 5)
    | none => none
  | _, _ => none

/-- Observable effects of a run: remote `Session` calls, the timer sleep and
the final write of the config document. -/
inductive Event where
  | ssoLogin (username password : String)
  | iclassLogin
  | courseQuery (term userId : String)
  | scheduleQuery (courseId userId : String)
  | checkinCall (scheduleId userId : String)
  | sleep (seconds : Nat)
  | persist
  deriving DecidableEq, Repr

/-- Environment of a Checkin run: the current instant (as produced by
`get_primitive_time`) and the outcome the remote schedule query would
deliver at fire time. -/
structure CheckinWorld where
  now : PrimitiveDateTime
  queryResult : Except String (List IClassSchedule)
  deriving Repr

/-- Outcome of (part of) a run: the events issued so far, and whether the
run panicked (unwound out of `main`). -/
structure RunOut where
  events : List Event
  panicked : Bool
  deriving DecidableEq, Repr

/-- Lines 172-183 of `main.rs`: after the wait, query the schedules of the
course afresh; on query failure report and return; otherwise take
`schedule.last().unwrap()` — a panic when the sequence is empty — and issue
the check-in call with that schedule's id and the stored user id. -/
def resolveAndFire (course userId : String)
    (qr : Except String (List IClassSchedule)) : RunOut :=
  match qr with
  | .error _ => ⟨[Event.scheduleQuery course userId], false⟩
  | .ok schedules =>
    match schedules.getLast? with
    | none => ⟨[Event.scheduleQuery course userId], true⟩
    | some s => ⟨[Event.scheduleQuery course userId,
                  Event.checkinCall s.id userId], false⟩

/-- Lines 157-186 of `main.rs`: the timed path of the Checkin arm, entered
when both `course` and `time` are given.  Parse and compute the deadline
(panicking on invalid input), then, only when `second > 0`, sleep for
`second` seconds and run the resolve-and-fire step. -/
def timedCheckin (course timeStr : String) (cfg : Config) (w : CheckinWorld) :
    RunOut :=
  match computeDeadline timeStr w.now with
  | none => ⟨[], true⟩
  | some (_, second) =>
    if second > 0 then
      ⟨Event.sleep second.toNat ::
         (resolveAndFire course cfg.user_id w.queryResult).events,
       (resolveAndFire course cfg.user_id w.queryResult).panicked⟩
    else ⟨[], false⟩

/-- Lines 149-156 of `main.rs`: the direct path of the Checkin arm — when a
schedule id is supplied, a check-in call is issued with it immediately
(before the timed path is considered). -/
def directCheckin (schedule : Option String) (userId : String) : List Event :=
  match schedule with
  | some sid => [Event.checkinCall sid userId]
  | none => []

/-- Lines 148-188 of `main.rs`: the whole Checkin arm.  The direct path and
the timed path are two successive `if let` blocks, not alternatives: the
direct check-in (when `schedule` is given) runs first, then the timed flow
(when both `course` and `time` are given) also runs. -/
def checkinArm (schedule course time : Option String) (cfg : Config)
    (w : CheckinWorld) : RunOut :=
  match course, time with
  | some c, some t =>
    ⟨directCheckin schedule cfg.user_id ++ (timedCheckin c t cfg w).events,
     (timedCheckin c t cfg w).panicked⟩
  | _, _ => ⟨directCheckin schedule cfg.user_id, false⟩

/-- Lines 75-78 of `main.rs`: the config load.  The serde parse of the
on-disk document is an external step whose outcome is the input here; an
absent file is opened with `create(true)` and parses as an error exactly
like a corrupt one, so both arrive as `Except.error`.  Any error silently
becomes `Config::default()`. -/
def loadConfig (parsed : Except String Config) : Config :=
  match parsed with
  | .ok c => c
  | .error _ => Config.default

/-- A full run of `main` on a Checkin command (`main.rs:68-197` restricted to
the Checkin arm): load the config, run the arm, and — only when the arm did
not panic — reach the shutdown step that persists the config document. -/
def mainCheckin (schedule course time : Option String)
    (parsed : Except String Config) (w : CheckinWorld) : RunOut :=
  let cfg := loadConfig parsed
  let r := checkinArm schedule course time cfg w
  if r.panicked then r else ⟨r.events ++ [Event.persist], false⟩

/-- Lines 87-92 of `main.rs`: field-wise merge of the optional credential
flags into the loaded config. -/
def mergeCredentials (username password : Option String) (cfg : Config) :
    Config :=
  let cfg1 := match username with
    | some u => { cfg with username := u }
    | none => cfg
  match password with
  | some p => { cfg1 with password := p }
  | none => cfg1

/-- Result of the Login arm: the updated config and the issued events. -/
structure LoginOut where
  config : Config
  events : List Event
  deriving DecidableEq, Repr

/-- Lines 86-110 of `main.rs`: the Login arm.  Merge the optional flags,
call `sso_login` (its result is only printed — success and failure both
fall through), then call `iclass_login`; on its success store the returned
id into `config.user_id`, on failure return early leaving `user_id`
untouched. -/
def loginArm (username password : Option String) (cfg : Config)
    (ssoResult : Except String Unit) (iclassResult : Except String String) :
    LoginOut :=
  let cfg1 := mergeCredentials username password cfg
  let events := [Event.ssoLogin cfg1.username cfg1.password, Event.iclassLogin]
  match iclassResult with
  | .ok id => ⟨{ cfg1 with user_id := id }, events⟩
  | .error _ => ⟨cfg1, events⟩

/-- Lines 120-133 of `main.rs`: the term branch of the Query arm.  When a
term is given, query its courses; on failure report and leave the config
alone; on success replace `config.courses` wholesale. -/
def queryTermStep (term : Option String) (cfg : Config)
    (result : Except String (List IClassCourse)) : Config × List Event :=
  match term with
  | none => (cfg, [])
  | some t =>
    match result with
    | .ok courses => ({ cfg with courses := courses },
                      [Event.courseQuery t cfg.user_id])
    | .error _ => (cfg, [Event.courseQuery t cfg.user_id])

/-- Lines 134-146 of `main.rs`: the course branch of the Query arm — a
schedule query that only renders a table and never mutates the config. -/
def queryScheduleStep (course : Option String) (userId : String) : List Event :=
  match course with
  | none => []
  | some c => [Event.scheduleQuery c userId]

/-- Result of the Query arm. -/
structure QueryOut where
  config : Config
  events : List Event
  deriving DecidableEq, Repr

/-- Lines 119-147 of `main.rs`: the whole Query arm — the term branch then
the course branch. -/
def queryArm (term course : Option String) (cfg : Config)
    (result : Except String (List IClassCourse)) : QueryOut :=
  let step := queryTermStep term cfg result
  ⟨step.1, step.2 ++ queryScheduleStep course step.1.user_id⟩

/-- Parsed hour or minute of a two-digit slice: the value Rust's parser
assigns to the digit pair. -/
def twoDigitVal (a b : Char) : Nat := 10 * (a.toNat - 48) + (b.toNat - 48)

theorem isAsciiDigit_bounds (c : Char) (h : isAsciiDigit c = true) :
    48 ≤ c.toNat ∧ c.toNat ≤ 57 := by
  simpa [isAsciiDigit, Bool.and_eq_true, decide_eq_true_eq] using h

theorem parseU8_two (a b : Char) (ha : isAsciiDigit a = true)
    (hb : isAsciiDigit b = true) :
    parseU8 [a, b] = some (twoDigitVal a b) := by
  obtain ⟨ha1, ha2⟩ := isAsciiDigit_bounds a ha
  obtain ⟨hb1, hb2⟩ := isAsciiDigit_bounds b hb
  have hne : a ≠ '+' := by
    intro h
    rw [h] at ha1
    exact absurd ha1 (by decide)
  have hval : digitsToNat [a, b] = twoDigitVal a b := by
    simp only [digitsToNat, List.foldl, twoDigitVal]
    omega
  have h255 : digitsToNat [a, b] ≤ 255 := by
    rw [hval]
    unfold twoDigitVal
    omega
  unfold parseU8
  rw [if_neg (by simp [hne])]
  unfold parseU8Digits
  rw [if_pos ⟨by simp, by simp [List.all, ha, hb]⟩, if_pos h255, hval]

theorem computeDeadline_eq (timeStr : String) (now : PrimitiveDateTime)
    (hour minute : Nat) (t : Time)
    (hp1 : (strSlice timeStr 0 2).bind parseU8 = some hour)
    (hp2 : (strSlice timeStr 2 4).bind parseU8 = some minute)
    (hf : Time.from_hms hour minute 0 = some t) :
    computeDeadline timeStr now =
      some (⟨now.date, t⟩,
        whole_seconds ((⟨now.date, t⟩ : PrimitiveDateTime).toNanos - now.toNanos)
          + 5) := by
  simp only [computeDeadline, hp1, hp2, hf]

theorem timedCheckin_none (course timeStr : String) (cfg : Config)
    (w : CheckinWorld) (h : computeDeadline timeStr w.now = none) :
    timedCheckin course timeStr cfg w = ⟨[], true⟩ := by
  unfold timedCheckin
  rw [h]

theorem timedCheckin_some (course timeStr : String) (cfg : Config)
    (w : CheckinWorld) (target : PrimitiveDateTime) (second : Int)
    (h : computeDeadline timeStr w.now = some (target, second)) :
    timedCheckin course timeStr cfg w =
      if second > 0 then
        ⟨Event.sleep second.toNat ::
           (resolveAndFire course cfg.user_id w.queryResult).events,
         (resolveAndFire course cfg.user_id w.queryResult).panicked⟩
      else ⟨[], false⟩ := by
  unfold timedCheckin
  rw [h]

/-- C1 (amended): the scheduler takes the Skipped outcome (no wait, no
schedule query, no check-in call, no panic) exactly when the computed
whole-second difference (target minus now) plus the 5-second margin is at
most zero — not when the target merely fails to be strictly in the future:
a target at or up to about five seconds before the invocation instant is
still waited for and fired. -/
theorem timed_skip_iff_margin_nonpos (course timeStr : String) (cfg : Config)
    (w : CheckinWorld) (target : PrimitiveDateTime) (second : Int)
    (h : computeDeadline timeStr w.now = some (target, second)) :
    ((timedCheckin course timeStr cfg w).events = [] ∧
      (timedCheckin course timeStr cfg w).panicked = false) ↔ second ≤ 0 := by
  rw [timedCheckin_some course timeStr cfg w target second h]
  by_cases hs : second > 0
  · rw [if_pos hs]
    constructor
    · rintro ⟨h1, -⟩
      exact absurd h1 (by simp)
    · intro hle
      exact absurd hle (by omega)
  · rw [if_neg hs]
    exact iff_of_true ⟨rfl, rfl⟩ (by omega)

/-- C1 counterexample: with the time string "0800" and the current instant
exactly 08:00:00 in UTC+8, the target instant is not strictly in the future
(it equals now), yet the scheduler does not skip: it waits 5 seconds,
issues the schedule query, and issues the check-in call. -/
theorem nonfuture_target_still_fires :
    computeDeadline "0800" (get_primitive_time 0) =
      some (⟨0, ⟨8, 0, 0, 0⟩⟩, 5) ∧
    ¬ (get_primitive_time 0).toNanos <
        (⟨0, ⟨8, 0, 0, 0⟩⟩ : PrimitiveDateTime).toNanos ∧
    timedCheckin "c1" "0800" Config.default
        ⟨get_primitive_time 0, Except.ok [⟨"s1"⟩]⟩ =
      ⟨[Event.sleep 5, Event.scheduleQuery "c1" "", Event.checkinCall "s1" ""],
       false⟩ :=
  ⟨by decide, by decide, by decide⟩

/-- C1 witness: the amended skip criterion applied at a concrete invocation
(time "0800" at 09:00:00 UTC+8, computed value −3595). -/
theorem timed_skip_iff_margin_nonpos_witness :
    ((timedCheckin "c1" "0800" Config.default
        ⟨get_primitive_time 3600000000000, Except.ok []⟩).events = [] ∧
      (timedCheckin "c1" "0800" Config.default
        ⟨get_primitive_time 3600000000000, Except.ok []⟩).panicked = false) ↔
      (-3595 : Int) ≤ 0 :=
  timed_skip_iff_margin_nonpos "c1" "0800" Config.default
    ⟨get_primitive_time 3600000000000, Except.ok []⟩ ⟨0, ⟨8, 0, 0, 0⟩⟩ (-3595)
    (by decide)

/-- C2: for every valid 4-digit time string (digit characters with hour at
most 23 and minute at most 59) and every current UTC instant, the deadline
computation yields a target whose date is today's date in UTC+8, whose hour
and minute are the parsed values, whose seconds (and sub-seconds) are zero,
and a wait count equal to the whole-second difference target minus now plus
the fixed 5-second margin. -/
theorem deadline_from_valid_hhmm (c1 c2 c3 c4 : Char) (u : Int)
    (h1 : isAsciiDigit c1 = true) (h2 : isAsciiDigit c2 = true)
    (h3 : isAsciiDigit c3 = true) (h4 : isAsciiDigit c4 = true)
    (hh : twoDigitVal c1 c2 ≤ 23) (hm : twoDigitVal c3 c4 ≤ 59) :
    computeDeadline (String.mk [c1, c2, c3, c4]) (get_primitive_time u) =
      some (⟨(get_primitive_time u).date,
             ⟨twoDigitVal c1 c2, twoDigitVal c3 c4, 0, 0⟩⟩,
        whole_seconds
          ((⟨(get_primitive_time u).date,
             ⟨twoDigitVal c1 c2, twoDigitVal c3 c4, 0, 0⟩⟩ :
              PrimitiveDateTime).toNanos - (get_primitive_time u).toNanos)
          + 5) := by
  have hf : Time.from_hms (twoDigitVal c1 c2) (twoDigitVal c3 c4) 0 =
      some ⟨twoDigitVal c1 c2, twoDigitVal c3 c4, 0, 0⟩ := by
    unfold Time.from_hms
    rw [if_pos ⟨hh, hm, by omega⟩]
  exact computeDeadline_eq (String.mk [c1, c2, c3, c4]) (get_primitive_time u)
    (twoDigitVal c1 c2) (twoDigitVal c3 c4)
    ⟨twoDigitVal c1 c2, twoDigitVal c3 c4, 0, 0⟩
    (parseU8_two c1 c2 h1 h2) (parseU8_two c3 c4 h3 h4) hf

/-- C2 witness: the deadline computation at the concrete valid string "0930"
with the current instant 09:00:00 UTC+8 — target 09:30:00 today, wait count
1800 + 5. -/
theorem deadline_from_valid_hhmm_witness :
    computeDeadline (String.mk ['0', '9', '3', '0'])
        (get_primitive_time 3600000000000) =
      some (⟨0, ⟨9, 30, 0, 0⟩⟩, 1805) := by
  have h := deadline_from_valid_hhmm '0' '9' '3' '0' 3600000000000
    (by decide) (by decide) (by decide) (by decide) (by decide) (by decide)
  exact h.trans (by decide)

/-- C3 (amended): a malformed or out-of-range time string makes the Checkin
command panic (an `unwrap` on the failed parse or on `Time::from_hms`); the
panic unwinds out of `main`, so the run does not reach the shutdown step
and the config document is not persisted. -/
theorem invalid_time_panics_no_persist (schedule : Option String)
    (course timeStr : String) (parsed : Except String Config)
    (w : CheckinWorld) (h : computeDeadline timeStr w.now = none) :
    (mainCheckin schedule (some course) (some timeStr) parsed w).panicked =
      true ∧
    Event.persist ∉
      (mainCheckin schedule (some course) (some timeStr) parsed w).events := by
  have ht := timedCheckin_none course timeStr (loadConfig parsed) w h
  cases schedule <;> simp [mainCheckin, checkinArm, ht, directCheckin]

/-- C3 counterexample: at the malformed time string "ab00" the run panics
and never issues the persist step — contradicting the claim that the
process still reaches the shutdown step that persists the Config
document. -/
theorem malformed_time_aborts_before_persist :
    (mainCheckin none (some "c1") (some "ab00") (Except.ok Config.default)
        ⟨get_primitive_time 0, Except.ok []⟩).panicked = true ∧
    Event.persist ∉
      (mainCheckin none (some "c1") (some "ab00") (Except.ok Config.default)
        ⟨get_primitive_time 0, Except.ok []⟩).events :=
  ⟨by decide, by decide⟩

/-- C3 witness: the amended statement applied at the out-of-range time
string "9900" (hour 99 fails `Time::from_hms`). -/
theorem invalid_time_panics_no_persist_witness :
    (mainCheckin (some "sid") (some "c1") (some "9900")
        (Except.ok Config.default)
        ⟨get_primitive_time 0, Except.ok []⟩).panicked = true ∧
    Event.persist ∉
      (mainCheckin (some "sid") (some "c1") (some "9900")
        (Except.ok Config.default)
        ⟨get_primitive_time 0, Except.ok []⟩).events :=
  invalid_time_panics_no_persist (some "sid") "c1" "9900"
    (Except.ok Config.default) ⟨get_primitive_time 0, Except.ok []⟩ (by decide)

/-- C4: at fire time the scheduler issues a fresh schedule query for the
course; when the query succeeds with a non-empty sequence whose last
element is `s`, the run does not fault and issues the check-in call with
`s.id` and the stored user id; when the returned sequence is empty, the run
faults (the `unwrap` of `last()` panics) instead of gracefully skipping. -/
theorem fire_time_takes_last_schedule (course timeStr : String) (cfg : Config)
    (w : CheckinWorld) (target : PrimitiveDateTime) (second : Int)
    (ss : List IClassSchedule) (s : IClassSchedule)
    (hd : computeDeadline timeStr w.now = some (target, second))
    (hpos : second > 0) (hq : w.queryResult = Except.ok ss)
    (hlast : ss.getLast? = some s) :
    timedCheckin course timeStr cfg w =
      ⟨[Event.sleep second.toNat, Event.scheduleQuery course cfg.user_id,
        Event.checkinCall s.id cfg.user_id], false⟩ ∧
    resolveAndFire course cfg.user_id (Except.ok []) =
      ⟨[Event.scheduleQuery course cfg.user_id], true⟩ := by
  have hr : resolveAndFire course cfg.user_id w.queryResult =
      ⟨[Event.scheduleQuery course cfg.user_id,
        Event.checkinCall s.id cfg.user_id], false⟩ := by
    rw [hq]
    simp [resolveAndFire, hlast]
  refine ⟨?_, rfl⟩
  rw [timedCheckin_some course timeStr cfg w target second hd, if_pos hpos, hr]

/-- C4 witness: a concrete fire at 09:30 set up at 09:00 with two schedules
returned; the last one ("s2") is checked in, and the empty-sequence case
faults. -/
theorem fire_time_takes_last_schedule_witness :
    timedCheckin "c1" "0930" Config.default
        ⟨get_primitive_time 3600000000000, Except.ok [⟨"s1"⟩, ⟨"s2"⟩]⟩ =
      ⟨[Event.sleep 1805, Event.scheduleQuery "c1" "",
        Event.checkinCall "s2" ""], false⟩ ∧
    resolveAndFire "c1" "" (Except.ok []) =
      ⟨[Event.scheduleQuery "c1" ""], true⟩ :=
  fire_time_takes_last_schedule "c1" "0930" Config.default
    ⟨get_primitive_time 3600000000000, Except.ok [⟨"s1"⟩, ⟨"s2"⟩]⟩
    ⟨0, ⟨9, 30, 0, 0⟩⟩ 1805 [⟨"s1"⟩, ⟨"s2"⟩] ⟨"s2"⟩
    (by decide) (by decide) rfl rfl

/-- C5 (amended): when no schedule id is supplied and the computed remaining
duration including the 5-second margin is at most zero, the Checkin run
makes zero remote calls — its only event is the final persist of the config
document.  (When a schedule id is also supplied, the direct check-in call
is still issued; see the counterexample.) -/
theorem skipped_checkin_zero_remote_calls (course timeStr : String)
    (parsed : Except String Config) (w : CheckinWorld)
    (target : PrimitiveDateTime) (second : Int)
    (h : computeDeadline timeStr w.now = some (target, second))
    (hle : second ≤ 0) :
    (mainCheckin none (some course) (some timeStr) parsed w).events =
      [Event.persist] := by
  have ht : timedCheckin course timeStr (loadConfig parsed) w = ⟨[], false⟩ := by
    rw [timedCheckin_some course timeStr (loadConfig parsed) w target second h,
      if_neg (by omega)]
  simp [mainCheckin, checkinArm, ht, directCheckin]

/-- C5 counterexample: a Checkin invocation with course and time given and
remaining −3595 at most zero, but with a schedule id also supplied: the
direct check-in call is issued, so the claim's "zero remote calls" fails as
universally stated. -/
theorem direct_checkin_fires_despite_past_deadline :
    computeDeadline "0800" (get_primitive_time 3600000000000) =
      some (⟨0, ⟨8, 0, 0, 0⟩⟩, -3595) ∧
    (-3595 : Int) ≤ 0 ∧
    Event.checkinCall "sid" "" ∈
      (mainCheckin (some "sid") (some "c1") (some "0800")
        (Except.ok Config.default)
        ⟨get_primitive_time 3600000000000, Except.ok []⟩).events :=
  ⟨by decide, by decide, by decide⟩

/-- C5 witness: the amended statement at a concrete skipped invocation
(time "0800" at 09:00:00 UTC+8, no schedule flag). -/
theorem skipped_checkin_zero_remote_calls_witness :
    (mainCheckin none (some "c1") (some "0800") (Except.ok Config.default)
        ⟨get_primitive_time 3600000000000, Except.ok []⟩).events =
      [Event.persist] :=
  skipped_checkin_zero_remote_calls "c1" "0800" (Except.ok Config.default)
    ⟨get_primitive_time 3600000000000, Except.ok []⟩ ⟨0, ⟨8, 0, 0, 0⟩⟩ (-3595)
    (by decide) (by decide)

/-- C6: the config load returns the parsed document on success and, on any
parse failure (absence and corruption arrive identically as a parse error),
the default config whose fields are all empty. -/
theorem load_defaults_on_parse_failure :
    (∀ e : String, loadConfig (Except.error e) = Config.default) ∧
    (∀ c : Config, loadConfig (Except.ok c) = c) ∧
    Config.default.username = "" ∧ Config.default.password = "" ∧
    Config.default.user_id = "" ∧ Config.default.courses = [] :=
  ⟨fun _ => rfl, fun _ => rfl, rfl, rfl, rfl, rfl⟩

/-- C7: a successful term query replaces the cached course list wholesale
(the resulting config is exactly the old one with `courses` set to the
returned sequence, so nothing of the previous list survives unless present
in the new result), and a failed term query leaves the config unchanged. -/
theorem query_term_replaces_courses (t : String) (course : Option String)
    (cfg : Config) (cs : List IClassCourse) (e : String) :
    (queryArm (some t) course cfg (Except.ok cs)).config =
      { cfg with courses := cs } ∧
    (queryArm (some t) course cfg (Except.error e)).config = cfg := by
  cases course <;> exact ⟨rfl, rfl⟩

/-- C8: the Login merge is field-wise — username and password are each
overwritten exactly when the corresponding optional flag is supplied, and
an absent flag leaves the previously loaded value untouched, regardless of
the outcomes of the remote login steps. -/
theorem login_merge_fieldwise (u p : Option String) (cfg : Config)
    (ssoResult : Except String Unit) (iclassResult : Except String String) :
    (loginArm u p cfg ssoResult iclassResult).config.username =
      u.getD cfg.username ∧
    (loginArm u p cfg ssoResult iclassResult).config.password =
      p.getD cfg.password := by
  cases u <;> cases p <;> cases iclassResult <;> exact ⟨rfl, rfl⟩

/-- C9: a failed `sso_login` does not abort the Login command — the
`iclass_login` call is still issued; if it succeeds its returned id is
stored into `user_id` even though the first step failed, and `user_id` is
left unchanged exactly in the case where `iclass_login` fails. -/
theorem sso_failure_not_fatal (u p : Option String) (cfg : Config) (e : String)
    (iclassResult : Except String String) :
    Event.iclassLogin ∈
      (loginArm u p cfg (Except.error e) iclassResult).events ∧
    (∀ uid, iclassResult = Except.ok uid →
      (loginArm u p cfg (Except.error e) iclassResult).config.user_id = uid) ∧
    (∀ e2, iclassResult = Except.error e2 →
      (loginArm u p cfg (Except.error e) iclassResult).config.user_id =
        cfg.user_id) := by
  refine ⟨?_, ?_, ?_⟩
  · cases iclassResult <;> simp [loginArm]
  · rintro uid rfl
    rfl
  · rintro e2 rfl
    cases u <;> cases p <;> rfl

/-- C9 witness: a concrete Login run whose SSO step fails and whose iClass
step returns id "42" — the second step is attempted and "42" is stored. -/
theorem sso_failure_not_fatal_witness :
    Event.iclassLogin ∈
      (loginArm none none Config.default (Except.error "boom")
        (Except.ok "42")).events ∧
    (loginArm none none Config.default (Except.error "boom")
        (Except.ok "42")).config.user_id = "42" :=
  ⟨(sso_failure_not_fatal none none Config.default "boom" (Except.ok "42")).1,
   (sso_failure_not_fatal none none Config.default "boom"
      (Except.ok "42")).2.1 "42" rfl⟩

/-- C10: when schedule, course and time are all given, the Checkin arm runs
both paths in sequence — the direct check-in with the supplied schedule id
comes first, followed by all events of the timed flow; the paths are not
mutually exclusive. -/
theorem checkin_both_paths_sequential (sid c t : String) (cfg : Config)
    (w : CheckinWorld) :
    (checkinArm (some sid) (some c) (some t) cfg w).events =
      Event.checkinCall sid cfg.user_id :: (timedCheckin c t cfg w).events ∧
    (checkinArm (some sid) (some c) (some t) cfg w).panicked =
      (timedCheckin c t cfg w).panicked :=
  ⟨rfl, rfl⟩

end IClassCli
